import Mathlib

/-!
Verification of the Telemarketing dashboard (`app_7.py`).

The program is a single Streamlit page: a loader (`load_data`), a filter
engine (the age `query` plus the `multiselect_filter` pipe chain), an
aggregator (`value_counts(normalize=True) * 100` sorted by index), an
exporter (`to_excel`) and the page rendering in `main`.  We embed the
data model (pandas DataFrame as a column list plus ordered rows) and the
operations shallowly, and prove the specified properties about them.
-/

namespace Telemarketing

/-- Cell values of the table: ages are integers, the categorical fields
(`job`, `marital`, ..., `y`) are strings. -/
inductive Value where
  | num (n : Int)
  | str (s : String)
deriving DecidableEq, Repr

/-- A row is the list of its cell values, aligned with the table's column
list (pandas stores rows positionally under the column index). -/
abbrev Row := List Value

/-- In-memory table (pandas DataFrame): named columns in order, and ordered
rows.  The integer index is dropped from the model: the app only ever uses
`reset_index(drop=True)`, which discards it. -/
structure Table where
  cols : List String
  rows : List Row
deriving DecidableEq, Repr

/-- Cell of row `r` under column name `c`, given the table's column list
(`df[c]` at that row).  `none` when the column is absent or the row is too
short. -/
def getCell (cols : List String) (r : Row) (c : String) : Option Value :=
  match cols.findIdx? (· == c) with
  | some i => r[i]?
  | none => none

/-- Row predicate of `relatorio[col].isin(selecionados)`: the row's cell
under `col` is one of the selected values (pandas `isin` is `False` on a
missing value). -/
def keep_cat (cols : List String) (col : String) (selecionados : List Value) (r : Row) : Bool :=
  (getCell cols r col).any (fun v => decide (v ∈ selecionados))

/-- `multiselect_filter(relatorio, col, selecionados)` from `app_7.py`:
if `'all' in selecionados` return the table unchanged, otherwise keep only
the rows whose value for `col` is in `selecionados`
(`relatorio[relatorio[col].isin(selecionados)].reset_index(drop=True)`). -/
def multiselect_filter (relatorio : Table) (col : String) (selecionados : List Value) : Table :=
  if Value.str "all" ∈ selecionados then relatorio
  else { relatorio with rows := relatorio.rows.filter (keep_cat relatorio.cols col selecionados) }

/-- Row predicate of `bank.query("age >= @idades[0] and age <= @idades[1]")`:
the row's `age` cell is a number within the inclusive bounds. -/
def keep_age (cols : List String) (lo hi : Int) (r : Row) : Bool :=
  (getCell cols r "age").any (fun v =>
    match v with
    | .num a => decide (lo ≤ a ∧ a ≤ hi)
    | .str _ => false)

/-- The age step of the pipe chain:
`bank.query("age >= @idades[0] and age <= @idades[1]")`. -/
def query_age (t : Table) (lo hi : Int) : Table :=
  { t with rows := t.rows.filter (keep_age t.cols lo hi) }

/-- The filter selection captured by the sidebar form on submit: the age
slider value `idades` and the eight multiselect values, named as in
`main`. -/
structure Selection where
  idades : Int × Int
  jobs_selected : List Value
  marital_selected : List Value
  default_selected : List Value
  housing_selected : List Value
  loan_selected : List Value
  contact_selected : List Value
  month_selected : List Value
  day_of_week_selected : List Value

/-- The method-chained filter of `main` (lines 130-139): the age `query`
followed by the eight `multiselect_filter` pipes, each applied to the
output of the previous step. -/
def apply_filters (bank : Table) (sel : Selection) : Table :=
  let t0 := query_age bank sel.idades.1 sel.idades.2
  let t1 := multiselect_filter t0 "job" sel.jobs_selected
  let t2 := multiselect_filter t1 "marital" sel.marital_selected
  let t3 := multiselect_filter t2 "default" sel.default_selected
  let t4 := multiselect_filter t3 "housing" sel.housing_selected
  let t5 := multiselect_filter t4 "loan" sel.loan_selected
  let t6 := multiselect_filter t5 "contact" sel.contact_selected
  let t7 := multiselect_filter t6 "month" sel.month_selected
  multiselect_filter t7 "day_of_week" sel.day_of_week_selected

/-- The non-missing values of column `col`, in row order (a pandas Series
with NaN dropped, as `value_counts` drops them). -/
def col_values (t : Table) (col : String) : List Value :=
  t.rows.filterMap (fun r => getCell t.cols r col)

/-- Order on cell values used by `sort_index()`: numbers by `≤`, strings
by `≤`, numbers before strings (a table column is homogeneous in
practice, so the cross case is arbitrary but fixed). -/
def vle : Value → Value → Prop
  | .num a, .num b => a ≤ b
  | .num _, .str _ => True
  | .str _, .num _ => False
  | .str a, .str b => a ≤ b

instance : DecidableRel vle := fun a b =>
  match a, b with
  | .num a, .num b => inferInstanceAs (Decidable (a ≤ b))
  | .num _, .str _ => inferInstanceAs (Decidable True)
  | .str _, .num _ => inferInstanceAs (Decidable False)
  | .str a, .str b => inferInstanceAs (Decidable (a ≤ b))

instance : IsTotal Value vle where
  total a b := by
    cases a <;> cases b <;> simp [vle] <;> exact le_total _ _

instance : IsTrans Value vle where
  trans a b c := by
    cases a <;> cases b <;> cases c <;> simp [vle] <;> exact le_trans

/-- The aggregator of `main`:
`t[col].value_counts(normalize=True).to_frame() * 100` followed by
`.sort_index()`: one entry per distinct value of the column, carrying
`count / total * 100` (exact rationals stand in for floats), listed in
ascending order of the value. -/
def value_counts_perc (t : Table) (col : String) : List (Value × ℚ) :=
  let vals := col_values t col
  (List.insertionSort vle vals.dedup).map
    (fun v => (v, (vals.count v : ℚ) / (vals.length : ℚ) * 100))

/-- What the distribution block of `main` renders for one table:
either the computed distribution (`st.write(..._target_perc)`), or the
`st.error("'y' column is missing ...")` message.  The `noData`
alternative is never produced by the code; it is here so that the claimed
"report 'no data' instead" behavior can be stated and settled. -/
inductive DistribView where
  | shown (d : List (Value × ℚ))
  | missingColumn
  | noData
deriving DecidableEq, Repr

/-- Lines 160-167 of `main`: the raw-table distribution block. -/
def raw_distrib_section (bank_raw : Table) : DistribView :=
  if "y" ∈ bank_raw.cols then .shown (value_counts_perc bank_raw "y")
  else .missingColumn

/-- Lines 169-179 of `main`: the filtered-table distribution block (the
`try/except KeyError` around `value_counts` cannot fire once
`'y' in bank.columns` holds, so it does not appear in the model). -/
def filtered_distrib_section (bank : Table) : DistribView :=
  if "y" ∈ bank.cols then .shown (value_counts_perc bank "y")
  else .missingColumn

/-- Spreadsheet content at cell-grid granularity: the rows of the single
sheet.  The binary xlsx container is abstracted away; the grid is what
`to_excel` determines and what `read_excel` recovers. -/
abbrev Grid := List (List Value)

/-- `to_excel(df)` from `app_7.py`: write `df` to a single sheet with the
header row of column names and no index column
(`df.to_excel(writer, index=False, sheet_name='Sheet1')`). -/
def to_excel (df : Table) : Grid := (df.cols.map Value.str) :: df.rows

/-- Column name recovered from a header cell when a sheet is read back. -/
def header_name : Value → String
  | .str s => s
  | .num n => toString n

/-- Table recovered from a sheet by `pd.read_excel`: first row is the
header, the remaining rows are the data. -/
def grid_to_table : Grid → Table
  | [] => ⟨[], []⟩
  | header :: body => ⟨header.map header_name, body⟩

/-- The error of `load_data` when neither parse accepts the upload. -/
inductive FormatError where
  | formatError
deriving DecidableEq, Repr

/-- An uploaded byte stream, represented by its observable behavior under
the two parsers the loader can apply: what `pd.read_csv(file, sep=';')`
returns on it (or that it raises), and likewise `pd.read_excel`. -/
structure FileData where
  csv_parse : Except Unit Table
  excel_parse : Except Unit Table

/-- `pd.read_csv(file_data, sep=';')` on the upload. -/
def read_csv (f : FileData) : Except Unit Table := f.csv_parse

/-- `pd.read_excel(file_data)` on the upload. -/
def read_excel (f : FileData) : Except Unit Table := f.excel_parse

/-- `load_data` from `app_7.py`: `try: return pd.read_csv(file_data,
sep=';') except: return pd.read_excel(file_data)`.  When both parses
fail, the failure escapes as the unparseable-upload error and no table is
produced. -/
def load_data (f : FileData) : Except FormatError Table :=
  match read_csv f with
  | .ok t => .ok t
  | .error _ =>
    match read_excel f with
    | .ok t => .ok t
    | .error _ => .error .formatError

/-- The byte stream produced by writing grid `g` as an xlsx file: a zip
container is not `';'`-separated text, so the text parse raises, while
the spreadsheet parse recovers the grid's table. -/
def xlsx_bytes (g : Grid) : FileData :=
  { csv_parse := .error (), excel_parse := .ok (grid_to_table g) }

/-- Everything `main` renders below the upload (lines 69-228), as data:
the two previews (`.head()` shows 5 rows), the export of the filtered
table, the two distribution blocks, and the chart pair (drawn only when
both tables have the `y` column). -/
structure Page where
  before_preview : List Row
  after_preview : List Row
  filtered_export : Grid
  raw_distrib : DistribView
  filtered_distrib : DistribView
  chart : Option (List (Value × ℚ) × List (Value × ℚ))

/-- The body of `main` once a file is loaded: filter `bank_raw` by the
submitted selection and render every section. -/
def render_page (bank_raw : Table) (sel : Selection) : Page :=
  let bank := apply_filters bank_raw sel
  { before_preview := bank_raw.rows.take 5
    after_preview := bank.rows.take 5
    filtered_export := to_excel bank
    raw_distrib := raw_distrib_section bank_raw
    filtered_distrib := filtered_distrib_section bank
    chart :=
      if "y" ∈ bank_raw.cols ∧ "y" ∈ bank.cols then
        some (value_counts_perc bank_raw "y", value_counts_perc bank "y")
      else none }

/-- The spec's per-row age constraint: `min_age <= age <= max_age`. -/
def age_ok (cols : List String) (lo hi : Int) (r : Row) : Prop :=
  ∃ a : Int, getCell cols r "age" = some (.num a) ∧ lo ≤ a ∧ a ≤ hi

/-- The spec's per-row constraint for one categorical column: either the
`'all'` sentinel is selected, or the row's value is a member of the
selected set. -/
def cat_ok (cols : List String) (col : String) (sel : List Value) (r : Row) : Prop :=
  Value.str "all" ∈ sel ∨ ∃ v, getCell cols r col = some v ∧ v ∈ sel

/-- The conjunction of all per-column constraints of a selection. -/
def row_sat (cols : List String) (sel : Selection) (r : Row) : Prop :=
  age_ok cols sel.idades.1 sel.idades.2 r ∧
  cat_ok cols "job" sel.jobs_selected r ∧
  cat_ok cols "marital" sel.marital_selected r ∧
  cat_ok cols "default" sel.default_selected r ∧
  cat_ok cols "housing" sel.housing_selected r ∧
  cat_ok cols "loan" sel.loan_selected r ∧
  cat_ok cols "contact" sel.contact_selected r ∧
  cat_ok cols "month" sel.month_selected r ∧
  cat_ok cols "day_of_week" sel.day_of_week_selected r

/-- The ages observed in the table, in row order. -/
def ages (t : Table) : List Int :=
  t.rows.filterMap (fun r =>
    match getCell t.cols r "age" with
    | some (Value.num a) => some a
    | _ => none)

/-- Minimum of a list of integers (`bank.age.min()`). -/
def listMin : List Int → Option Int
  | [] => none
  | a :: l =>
    match listMin l with
    | none => some a
    | some m => some (min a m)

/-- Maximum of a list of integers (`bank.age.max()`). -/
def listMax : List Int → Option Int
  | [] => none
  | a :: l =>
    match listMax l with
    | none => some a
    | some m => some (max a m)

/-! ### Helper lemmas about the filter steps -/

theorem cols_multiselect (t : Table) (c : String) (s : List Value) :
    (multiselect_filter t c s).cols = t.cols := by
  unfold multiselect_filter
  split <;> rfl

theorem cols_query_age (t : Table) (lo hi : Int) :
    (query_age t lo hi).cols = t.cols := rfl

theorem cols_apply_filters (bank : Table) (sel : Selection) :
    (apply_filters bank sel).cols = bank.cols := by
  simp only [apply_filters, cols_multiselect, cols_query_age]

theorem multiselect_all {t : Table} {c : String} {s : List Value}
    (h : Value.str "all" ∈ s) : multiselect_filter t c s = t := by
  unfold multiselect_filter
  rw [if_pos h]

theorem keep_cat_iff {cols : List String} {c : String} {s : List Value} {r : Row} :
    keep_cat cols c s r = true ↔ ∃ v, getCell cols r c = some v ∧ v ∈ s := by
  unfold keep_cat
  cases h : getCell cols r c <;> simp [h]

theorem keep_age_iff {cols : List String} {lo hi : Int} {r : Row} :
    keep_age cols lo hi r = true ↔ age_ok cols lo hi r := by
  unfold keep_age age_ok
  cases h : getCell cols r "age" with
  | none => simp [h]
  | some v => cases v <;> simp [h]

theorem mem_multiselect {t : Table} {c : String} {s : List Value} {r : Row} :
    r ∈ (multiselect_filter t c s).rows ↔ r ∈ t.rows ∧ cat_ok t.cols c s r := by
  unfold multiselect_filter cat_ok
  split
  · rename_i h
    simp [h]
  · rename_i h
    simp [List.mem_filter, keep_cat_iff, h]

theorem mem_query_age {t : Table} {lo hi : Int} {r : Row} :
    r ∈ (query_age t lo hi).rows ↔ r ∈ t.rows ∧ age_ok t.cols lo hi r := by
  unfold query_age
  simp [List.mem_filter, keep_age_iff]

theorem sub_multiselect {t : Table} {c : String} {s : List Value} :
    (multiselect_filter t c s).rows.Sublist t.rows := by
  unfold multiselect_filter
  split
  · exact List.Sublist.refl _
  · exact List.filter_sublist _

theorem sub_query_age {t : Table} {lo hi : Int} :
    (query_age t lo hi).rows.Sublist t.rows :=
  List.filter_sublist _

theorem multiselect_rows_nil {t : Table} {c : String} {s : List Value}
    (h : t.rows = []) : (multiselect_filter t c s).rows = [] := by
  unfold multiselect_filter
  split <;> simp [h]

theorem multiselect_empty_sel (t : Table) (c : String) :
    (multiselect_filter t c []).rows = [] := by
  unfold multiselect_filter
  rw [if_neg (by simp)]
  simp [List.filter_eq_nil_iff, keep_cat_iff]

/-! ### Claim theorems -/

/-- C10: if the literal `'all'` is among the selected values — even
alongside other selections — `multiselect_filter` returns its input table
completely unchanged, so `'all'` is a dominating sentinel and a data value
equal to `'all'` cannot act as a genuine constraint. -/
theorem C10_all_sentinel_dominates (t : Table) (col : String) (sel : List Value)
    (h : Value.str "all" ∈ sel) : multiselect_filter t col sel = t :=
  multiselect_all h

def T10 : Table :=
  ⟨["job"], [[Value.str "admin"], [Value.str "teacher"], [Value.str "all"]]⟩

theorem C10_witness :
    Value.str "all" ∈ [Value.str "all", Value.str "admin"] ∧
    multiselect_filter T10 "job" [Value.str "all", Value.str "admin"] = T10 :=
  ⟨by decide, C10_all_sentinel_dominates T10 "job" _ (by decide)⟩

/-- C8: for every table and selection, the filter pipeline preserves the
column list and returns a sublist of the original rows: rows are only
excluded, never added, mutated or reordered. -/
theorem C8_filter_subset_invariant (bank : Table) (sel : Selection) :
    (apply_filters bank sel).cols = bank.cols ∧
    (apply_filters bank sel).rows.Sublist bank.rows := by
  constructor
  · exact cols_apply_filters bank sel
  · simp only [apply_filters]
    exact sub_multiselect.trans (sub_multiselect.trans (sub_multiselect.trans
      (sub_multiselect.trans (sub_multiselect.trans (sub_multiselect.trans
        (sub_multiselect.trans (sub_multiselect.trans sub_query_age)))))))

/-- C6: `load_data` first attempts the `';'`-separated text parse; if that
fails it attempts the spreadsheet parse; if both fail, it fails with the
format error and yields no table. -/
theorem C6_loader_fallback (f : FileData) :
    (∀ t, read_csv f = .ok t → load_data f = .ok t) ∧
    (∀ e t, read_csv f = .error e → read_excel f = .ok t → load_data f = .ok t) ∧
    (∀ e e', read_csv f = .error e → read_excel f = .error e' →
      load_data f = .error FormatError.formatError) := by
  refine ⟨fun t h => ?_, fun e t h h' => ?_, fun e e' h h' => ?_⟩ <;>
    simp [load_data, h, *]

def badFile : FileData := ⟨.error (), .error ()⟩

theorem C6_witness :
    read_csv badFile = .error () ∧ read_excel badFile = .error () ∧
    load_data badFile = .error FormatError.formatError :=
  ⟨rfl, rfl, (C6_loader_fallback badFile).2.2 () () rfl rfl⟩

/-- C9: writing any table with `to_excel` and loading the resulting
spreadsheet bytes back through `load_data` recovers the very same table:
same columns in the same order, same values, same row order. -/
theorem C9_export_roundtrip (df : Table) :
    load_data (xlsx_bytes (to_excel df)) = .ok df := by
  cases df with
  | mk cols rows =>
    have h : List.map (header_name ∘ Value.str) cols = cols := by
      rw [show header_name ∘ Value.str = id from funext fun s => rfl, List.map_id]
    simp [load_data, read_csv, read_excel, xlsx_bytes, to_excel, grid_to_table,
      List.map_map, h]

/-- C3: an explicitly empty categorical selection (no `'all'` and no
values) makes its `multiselect_filter` step return zero rows, and once any
of the eight selections of the pipeline is empty the final result of
`apply_filters` has zero rows. -/
theorem C3_empty_selection_drops_all :
    (∀ (t : Table) (c : String), (multiselect_filter t c []).rows = []) ∧
    (∀ (bank : Table) (sel : Selection),
      sel.jobs_selected = [] ∨ sel.marital_selected = [] ∨ sel.default_selected = [] ∨
      sel.housing_selected = [] ∨ sel.loan_selected = [] ∨ sel.contact_selected = [] ∨
      sel.month_selected = [] ∨ sel.day_of_week_selected = [] →
      (apply_filters bank sel).rows = []) := by
  refine ⟨multiselect_empty_sel, fun bank sel h => ?_⟩
  simp only [apply_filters]
  rcases h with h | h | h | h | h | h | h | h <;> rw [h] <;>
    repeat (first
      | exact multiselect_empty_sel _ _
      | apply multiselect_rows_nil)

def T3 : Table :=
  ⟨["age", "job", "marital", "default", "housing", "loan", "contact", "month", "day_of_week"],
   [[Value.num 30, Value.str "admin", Value.str "single", Value.str "no", Value.str "yes",
     Value.str "no", Value.str "cellular", Value.str "may", Value.str "mon"]]⟩

def sel3 : Selection :=
  ⟨(0, 100), [], [Value.str "all"], [Value.str "all"], [Value.str "all"], [Value.str "all"],
   [Value.str "all"], [Value.str "all"], [Value.str "all"]⟩

theorem C3_witness :
    (multiselect_filter T3 "job" []).rows = [] ∧ (apply_filters T3 sel3).rows = [] :=
  ⟨C3_empty_selection_drops_all.1 T3 "job",
   C3_empty_selection_drops_all.2 T3 sel3 (Or.inl rfl)⟩

/-- C1: a row is in the output of the filter pipeline iff it is a row of
the input table satisfying the conjunction of all per-column constraints:
the inclusive age range, and for each categorical column either `'all'`
selected or the row's value a member of the selected set (soundness and
completeness of filtering). -/
theorem C1_filter_exact_conjunction (bank : Table) (sel : Selection) (r : Row) :
    r ∈ (apply_filters bank sel).rows ↔ r ∈ bank.rows ∧ row_sat bank.cols sel r := by
  simp only [apply_filters, row_sat, mem_multiselect, mem_query_age, cols_multiselect,
    cols_query_age, and_assoc]

theorem listMin_none {l : List Int} (h : listMin l = none) : l = [] := by
  cases l with
  | nil => rfl
  | cons b l =>
    simp only [listMin] at h
    cases hl : listMin l <;> rw [hl] at h <;> simp at h

theorem listMin_le {l : List Int} {m : Int} (hm : listMin l = some m) :
    ∀ a ∈ l, m ≤ a := by
  induction l generalizing m with
  | nil => simp [listMin] at hm
  | cons b l ih =>
    intro a ha
    simp only [listMin] at hm
    cases hl : listMin l with
    | none =>
      rw [hl] at hm
      injection hm with hm
      subst hm
      rcases List.mem_cons.1 ha with rfl | ha'
      · exact le_refl _
      · rw [listMin_none hl] at ha'
        simp at ha'
    | some m' =>
      rw [hl] at hm
      injection hm with hm
      subst hm
      rcases List.mem_cons.1 ha with rfl | ha'
      · exact min_le_left _ _
      · exact le_trans (min_le_right _ _) (ih hl a ha')

theorem listMax_none {l : List Int} (h : listMax l = none) : l = [] := by
  cases l with
  | nil => rfl
  | cons b l =>
    simp only [listMax] at h
    cases hl : listMax l <;> rw [hl] at h <;> simp at h

theorem le_listMax {l : List Int} {m : Int} (hm : listMax l = some m) :
    ∀ a ∈ l, a ≤ m := by
  induction l generalizing m with
  | nil => simp [listMax] at hm
  | cons b l ih =>
    intro a ha
    simp only [listMax] at hm
    cases hl : listMax l with
    | none =>
      rw [hl] at hm
      injection hm with hm
      subst hm
      rcases List.mem_cons.1 ha with rfl | ha'
      · exact le_refl _
      · rw [listMax_none hl] at ha'
        simp at ha'
    | some m' =>
      rw [hl] at hm
      injection hm with hm
      subst hm
      rcases List.mem_cons.1 ha with rfl | ha'
      · exact le_max_left _ _
      · exact le_trans (ih hl a ha') (le_max_right _ _)

theorem query_age_id {t : Table} {lo hi : Int}
    (h : ∀ r ∈ t.rows, keep_age t.cols lo hi r = true) : query_age t lo hi = t := by
  unfold query_age
  rw [List.filter_eq_self.2 h]

/-- C2: when every categorical selection contains `'all'` and the age
range is the observed minimum and maximum age of the table, the filter
pipeline returns the table unchanged (identity law). -/
theorem C2_identity_law (bank : Table) (sel : Selection)
    (hage : ∀ r ∈ bank.rows, ∃ a : Int, getCell bank.cols r "age" = some (Value.num a))
    (hmin : listMin (ages bank) = some sel.idades.1)
    (hmax : listMax (ages bank) = some sel.idades.2)
    (h1 : Value.str "all" ∈ sel.jobs_selected)
    (h2 : Value.str "all" ∈ sel.marital_selected)
    (h3 : Value.str "all" ∈ sel.default_selected)
    (h4 : Value.str "all" ∈ sel.housing_selected)
    (h5 : Value.str "all" ∈ sel.loan_selected)
    (h6 : Value.str "all" ∈ sel.contact_selected)
    (h7 : Value.str "all" ∈ sel.month_selected)
    (h8 : Value.str "all" ∈ sel.day_of_week_selected) :
    apply_filters bank sel = bank := by
  have hq : query_age bank sel.idades.1 sel.idades.2 = bank := by
    apply query_age_id
    intro r hr
    obtain ⟨a, ha⟩ := hage r hr
    have hmem : a ∈ ages bank := List.mem_filterMap.2 ⟨r, hr, by rw [ha]⟩
    have l1 := listMin_le hmin a hmem
    have l2 := le_listMax hmax a hmem
    unfold keep_age
    rw [ha]
    simpa using ⟨l1, l2⟩
  simp only [apply_filters]
  rw [hq, multiselect_all h1, multiselect_all h2, multiselect_all h3, multiselect_all h4,
    multiselect_all h5, multiselect_all h6, multiselect_all h7, multiselect_all h8]

def bank2 : Table :=
  ⟨["age", "job", "marital", "default", "housing", "loan", "contact", "month", "day_of_week"],
   [[Value.num 30, Value.str "admin", Value.str "single", Value.str "no", Value.str "yes",
     Value.str "no", Value.str "cellular", Value.str "may", Value.str "mon"],
    [Value.num 45, Value.str "services", Value.str "married", Value.str "no", Value.str "no",
     Value.str "yes", Value.str "telephone", Value.str "jul", Value.str "fri"]]⟩

def sel2 : Selection :=
  ⟨(30, 45), [Value.str "all"], [Value.str "all"], [Value.str "all"], [Value.str "all"],
   [Value.str "all"], [Value.str "all"], [Value.str "all"], [Value.str "all"]⟩

theorem C2_witness : apply_filters bank2 sel2 = bank2 :=
  C2_identity_law bank2 sel2
    (fun r hr => by
      rcases List.mem_cons.1 hr with rfl | hr'
      · exact ⟨30, rfl⟩
      · rcases List.mem_cons.1 hr' with rfl | hr''
        · exact ⟨45, rfl⟩
        · simp at hr'')
    (by decide) (by decide) (by decide) (by decide) (by decide) (by decide)
    (by decide) (by decide) (by decide) (by decide)

def T5 : Table := ⟨["y"], []⟩

/-- C5 counterexample: on the zero-row table with the `y` column, the
filtered-distribution block of `main` does not report "no data": it shows
the computed (empty) distribution. -/
theorem C5_counterexample :
    filtered_distrib_section T5 ≠ DistribView.noData ∧
    filtered_distrib_section T5 = DistribView.shown [] := by
  constructor <;> decide

/-- C5 (amended): on a zero-row table with the outcome column present the
distribution computation is not skipped and no "no data" message exists;
the computation runs and yields the empty distribution (zero entries, so
no division is ever performed on a value), which is what is displayed. -/
theorem C5_empty_table_distribution (t : Table) (hy : "y" ∈ t.cols)
    (hr : t.rows = []) :
    filtered_distrib_section t = DistribView.shown [] ∧
    value_counts_perc t "y" = [] := by
  have hv : col_values t "y" = [] := by simp [col_values, hr]
  have he : value_counts_perc t "y" = [] := by
    simp [value_counts_perc, hv, List.insertionSort]
  exact ⟨by simp [filtered_distrib_section, hy, he], he⟩

theorem C5_witness :
    "y" ∈ T5.cols ∧ T5.rows = [] ∧
    (filtered_distrib_section T5 = DistribView.shown [] ∧
     value_counts_perc T5 "y" = []) :=
  ⟨by decide, rfl, C5_empty_table_distribution T5 (by decide) rfl⟩

/-- C7: when the uploaded table has no `y` column, both distribution
blocks of the page show the missing-column error, the chart pair is not
drawn, while the filtered-table preview and its spreadsheet export are
still produced from the filtered table as usual. -/
theorem C7_missing_outcome_column (bank_raw : Table) (sel : Selection)
    (h : "y" ∉ bank_raw.cols) :
    (render_page bank_raw sel).raw_distrib = DistribView.missingColumn ∧
    (render_page bank_raw sel).filtered_distrib = DistribView.missingColumn ∧
    (render_page bank_raw sel).chart = none ∧
    (render_page bank_raw sel).after_preview = (apply_filters bank_raw sel).rows.take 5 ∧
    (render_page bank_raw sel).filtered_export = to_excel (apply_filters bank_raw sel) := by
  have hc : "y" ∉ (apply_filters bank_raw sel).cols := by
    rw [cols_apply_filters]
    exact h
  refine ⟨?_, ?_, ?_, rfl, rfl⟩ <;>
    simp [render_page, raw_distrib_section, filtered_distrib_section, h, hc]

def T7 : Table :=
  ⟨["age", "job", "marital", "default", "housing", "loan", "contact", "month", "day_of_week"],
   [[Value.num 30, Value.str "admin", Value.str "single", Value.str "no", Value.str "yes",
     Value.str "no", Value.str "cellular", Value.str "may", Value.str "mon"]]⟩

def sel7 : Selection :=
  ⟨(0, 100), [Value.str "all"], [Value.str "all"], [Value.str "all"], [Value.str "all"],
   [Value.str "all"], [Value.str "all"], [Value.str "all"], [Value.str "all"]⟩

theorem C7_witness :
    "y" ∉ T7.cols ∧
    ((render_page T7 sel7).raw_distrib = DistribView.missingColumn ∧
     (render_page T7 sel7).filtered_distrib = DistribView.missingColumn ∧
     (render_page T7 sel7).chart = none ∧
     (render_page T7 sel7).after_preview = (apply_filters T7 sel7).rows.take 5 ∧
     (render_page T7 sel7).filtered_export = to_excel (apply_filters T7 sel7)) :=
  ⟨by decide, C7_missing_outcome_column T7 sel7 (by decide)⟩

/-- C4: for a non-empty table whose rows all carry the outcome column
`y`, the computed distribution (count of each distinct value over total
rows, times 100) has percentages summing to exactly 100 and is listed in
ascending order of the outcome value. -/
theorem C4_distribution_sum_sorted (t : Table)
    (hne : t.rows ≠ [])
    (hy : ∀ r ∈ t.rows, (getCell t.cols r "y").isSome = true) :
    ((value_counts_perc t "y").map Prod.snd).sum = 100 ∧
    List.Sorted vle ((value_counts_perc t "y").map Prod.fst) := by
  have hvne : col_values t "y" ≠ [] := by
    cases ht : t.rows with
    | nil => exact absurd ht hne
    | cons r rs =>
      obtain ⟨v, hv⟩ := Option.isSome_iff_exists.1 (hy r (by rw [ht]; exact List.mem_cons_self r rs))
      simp [col_values, ht, List.filterMap_cons, hv]
  have hT : ((col_values t "y").length : ℚ) ≠ 0 := by
    exact_mod_cast List.length_pos.2 hvne |>.ne'
  constructor
  · have e1 : (value_counts_perc t "y").map Prod.snd
        = (List.insertionSort vle (col_values t "y").dedup).map
            (fun v => ((col_values t "y").count v : ℚ) / ((col_values t "y").length : ℚ) * 100) := by
      simp [value_counts_perc, List.map_map]
    rw [e1]
    rw [List.Perm.sum_eq (List.Perm.map _ (List.perm_insertionSort vle (col_values t "y").dedup))]
    simp only [div_mul_eq_mul_div, mul_div_assoc]
    rw [List.sum_map_mul_right]
    have e3 : ((col_values t "y").dedup.map fun v => (((col_values t "y").count v : ℕ) : ℚ))
        = (((col_values t "y").dedup.map fun v => (col_values t "y").count v).map
            fun n => ((n : ℕ) : ℚ)) := by
      rw [List.map_map]
      rfl
    rw [e3, ← Nat.cast_list_sum, List.sum_map_count_dedup_eq_length]
    rw [mul_comm, div_mul_cancel₀ _ hT]
  · have e4 : (value_counts_perc t "y").map Prod.fst
        = List.insertionSort vle (col_values t "y").dedup := by
      simp only [value_counts_perc, List.map_map]
      rw [show (Prod.fst ∘ fun v =>
          (v, ((col_values t "y").count v : ℚ) / ((col_values t "y").length : ℚ) * 100)) = id
        from funext fun v => rfl, List.map_id]
    rw [e4]
    exact List.sorted_insertionSort vle _

def T4 : Table :=
  ⟨["y"], [[Value.str "no"], [Value.str "yes"], [Value.str "no"], [Value.str "no"]]⟩

theorem C4_witness :
    T4.rows ≠ [] ∧
    (((value_counts_perc T4 "y").map Prod.snd).sum = 100 ∧
     List.Sorted vle ((value_counts_perc T4 "y").map Prod.fst)) :=
  ⟨by decide, C4_distribution_sum_sorted T4 (by decide) (by decide)⟩

end Telemarketing
